import Mathlib

/-!
Verification development for the twitter-scraper-mcp server (src/server.py).

The Python module is shallowly embedded: pure helpers become Lean functions,
the stateful client cache becomes explicit state passing over a `ServerState`,
and calls into the wrapped twikit client library (network effects) are
delegated to an oracle record `ClientOps` together with an explicit event
trace.  Exceptions become `Except` / `Option` values.
-/

namespace TwitterMCP

/-- JSON-like values, modeling the Python objects that appear as tool
arguments and as the dictionaries built by the handlers in src/server.py. -/
inductive JVal : Type where
  | null : JVal
  | bool (b : Bool) : JVal
  | num (n : Int) : JVal
  | str (s : String) : JVal
  | arr (xs : List JVal) : JVal
  | obj (fields : List (String × JVal)) : JVal

/-- The decimal digit character for `k % 10` (used by the decimal renderer). -/
def digitChar (k : Nat) : Char :=
  match k % 10 with
  | 0 => '0'
  | 1 => '1'
  | 2 => '2'
  | 3 => '3'
  | 4 => '4'
  | 5 => '5'
  | 6 => '6'
  | 7 => '7'
  | 8 => '8'
  | _ => '9'

/-- Accumulator-style decimal digit list of a natural number. -/
def natDigitsAux (n : Nat) (acc : List Char) : List Char :=
  if n < 10 then digitChar n :: acc
  else natDigitsAux (n / 10) (digitChar n :: acc)
termination_by n
decreasing_by
  exact Nat.div_lt_self (by omega) (by omega)

/-- Decimal rendering of a natural number, as Python `str`. -/
def natRepr (n : Nat) : String := String.mk (natDigitsAux n [])

/-- Decimal rendering of an integer, as Python `str`. -/
def intRepr (n : Int) : String :=
  if n < 0 then "-" ++ natRepr n.natAbs else natRepr n.natAbs

/-- JSON string escaping of one character (models the escaping performed by
Python `json.dumps` on the characters that occur in this development). -/
def escapeChar (c : Char) : List Char :=
  if c = '"' then ['\\', '"']
  else if c = '\\' then ['\\', '\\']
  else if c = '\n' then ['\\', 'n']
  else [c]

/-- JSON string escaping, character by character. -/
def escapeString (s : String) : String := String.mk (s.data.map escapeChar).flatten

/-- Indentation: `n` spaces. -/
def spaces (n : Nat) : String := String.mk (List.replicate n ' ')

mutual
/-- Models Python `json.dumps(x, indent=2)` rendering of a value at the given
current indentation level. -/
def dumpsVal (ind : Nat) : JVal → String
  | .null => "null"
  | .bool true => "true"
  | .bool false => "false"
  | .num n => intRepr n
  | .str s => "\"" ++ escapeString s ++ "\""
  | .arr [] => "[]"
  | .arr (x :: xs) => "[\n" ++ dumpsItems (ind + 2) x xs ++ "\n" ++ spaces ind ++ "]"
  | .obj [] => "\x7b\x7d"
  | .obj (f :: fs) => "\x7b\n" ++ dumpsFields (ind + 2) f fs ++ "\n" ++ spaces ind ++ "\x7d"
termination_by j => sizeOf j
decreasing_by
  all_goals simp_wf
  all_goals omega

/-- Renders a nonempty list of array items, comma/newline separated. -/
def dumpsItems (ind : Nat) (x : JVal) (xs : List JVal) : String :=
  match xs with
  | [] => spaces ind ++ dumpsVal ind x
  | y :: ys => spaces ind ++ dumpsVal ind x ++ ",\n" ++ dumpsItems ind y ys
termination_by sizeOf x + sizeOf xs
decreasing_by
  all_goals simp_wf
  all_goals omega

/-- Renders a nonempty list of object fields, comma/newline separated. -/
def dumpsFields (ind : Nat) (f : String × JVal) (fs : List (String × JVal)) : String :=
  match f, fs with
  | (k, v), [] => spaces ind ++ "\"" ++ escapeString k ++ "\": " ++ dumpsVal ind v
  | (k, v), g :: gs =>
      spaces ind ++ "\"" ++ escapeString k ++ "\": " ++ dumpsVal ind v ++ ",\n" ++
        dumpsFields ind g gs
termination_by sizeOf f + sizeOf fs
decreasing_by
  all_goals simp_wf
  all_goals omega
end

/-- Models `json.dumps(x, indent=2)` as used by execute_tool in src/server.py. -/
def jsonDumps (j : JVal) : String := dumpsVal 0 j

/-! ## The tweet-id resolver `_parse_tweet_id` (src/server.py lines 438-467)

The regular expression `(?:twitter\.com|x\.com)/[^/]+/status/(\d+)` searched
with `re.search` is implemented concretely: scan start positions left to
right; at a given position the alternation is deterministic (no string starts
with both literals), and `[^/]+` is forced to the maximal non-slash run
because it is followed by a literal `/`. -/

/-- Strips an exact literal from the front of a character list. -/
def stripLit : List Char → List Char → Option (List Char)
  | [], cs => some cs
  | _ :: _, [] => none
  | p :: ps, c :: cs => if c = p then stripLit ps cs else none

/-- Attempts to match `(?:twitter\.com|x\.com)/[^/]+/status/(\d+)` at the head
of the character list, returning the captured digit group. -/
def matchStatusAt (cs : List Char) : Option String :=
  let afterDomain : Option (List Char) :=
    match stripLit "twitter.com".data cs with
    | some r => some r
    | none => stripLit "x.com".data cs
  match afterDomain with
  | none => none
  | some r1 =>
    match r1 with
    | '/' :: r2 =>
      let seg := r2.takeWhile (fun c => c ≠ '/')
      if seg.isEmpty then none
      else
        match stripLit "/status/".data (r2.dropWhile (fun c => c ≠ '/')) with
        | none => none
        | some r3 =>
          let ds := r3.takeWhile Char.isDigit
          if ds.isEmpty then none else some (String.mk ds)
    | _ => none

/-- `re.search` for the status-URL pattern: leftmost match wins. -/
def searchStatus : List Char → Option String
  | [] => matchStatusAt []
  | c :: t =>
    match matchStatusAt (c :: t) with
    | some d => some d
    | none => searchStatus t

/-- Python `str.isdigit` restricted to ASCII digits (the repository only ever
deals in ASCII identifiers; the same digit notion is used on both sides of
every claim). False on the empty string, as in Python. -/
def pyIsDigit (s : String) : Bool := !s.data.isEmpty && s.data.all Char.isDigit

/-- Embeds `TwitterMCPServer._parse_tweet_id` (src/server.py lines 438-467). -/
def parse_tweet_id (s : String) : String :=
  if pyIsDigit s then s
  else
    match searchStatus s.data with
    | some d => d
    | none =>
      let digitsOnly := s.data.filter Char.isDigit
      if digitsOnly ≠ [] ∧ 15 ≤ digitsOnly.length then String.mk digitsOnly else s

/-! ## Dictionary access (models Python subscripting on parsed responses) -/

/-- First-match association lookup (Python dict keys are unique, so this
models dict lookup). -/
def lookupField : List (String × JVal) → String → Option JVal
  | [], _ => none
  | (k, v) :: rest, key => if k = key then some v else lookupField rest key

/-- Python `x[k]`: `none` models the raised KeyError (missing key) or
TypeError (subscripting a non-dict). -/
def jGet (j : JVal) (k : String) : Option JVal :=
  match j with
  | .obj fs => lookupField fs k
  | _ => none

/-- Reads a field and requires it to be a string (a non-string where a string
method is then called would raise, which the caller maps to `none` too). -/
def jGetStr (j : JVal) (k : String) : Option String :=
  match jGet j k with
  | some (.str s) => some s
  | _ => none

/-- Python truthiness of a JSON-like value. -/
def jTruthy : JVal → Bool
  | .null => false
  | .bool b => b
  | .num n => n != 0
  | .str s => !s.isEmpty
  | .arr xs => !xs.isEmpty
  | .obj fs => !fs.isEmpty

/-! ## The pagination patch (src/server.py lines 36-167)

Both patched routines end with the same guarded read of the trailing cursor
entry.  `cursorLookup` models `entry[\x27content\x27][\x27itemContent\x27][\x27value\x27]`
inside the added `try`: a `none` is exactly a KeyError/TypeError from one of
the three subscripts, all of which the patch catches. -/

/-- Python `str.startswith`, on the character lists. -/
def pyStartsWith (s p : String) : Bool := p.data.isPrefixOf s.data

/-- The chained subscript read performed inside the patch `try` block. -/
def cursorLookup (e : JVal) : Option JVal :=
  match jGet e "content" with
  | none => none
  | some c =>
    match jGet c "itemContent" with
    | none => none
    | some ic => jGet ic "value"

/-- Embeds lines 102-120 of `_patched_get_tweet_by_id`: the computation of the
`reply_next_cursor` and `_fetch_more_replies` fields of the replies `Result`.
The fetch operation `partial(self._get_more_replies, tweet_id, cursor)` is
represented by its bound arguments `(tweet_id, cursor)`.  The outer `none`
models an exception raised outside the added `try` (empty entry list, or a
trailing entry whose `entryId` read fails), which the patch does not catch. -/
def patchedTweetDetailCursor (tweetId : String) (entries : List JVal) :
    Option (Option JVal × Option (String × JVal)) :=
  match entries.getLast? with
  | none => none
  | some e =>
    match jGetStr e "entryId" with
    | none => none
    | some eid =>
      if pyStartsWith eid "cursor" then
        match cursorLookup e with
        | some v => some (some v, some (tweetId, v))
        | none => some (none, none)
      else some (none, none)

/-- Embeds lines 147-158 of `_patched_get_more_replies`: the computation of
`next_cursor` and `_fetch_next_result`, with the same conventions as
`patchedTweetDetailCursor`. -/
def patchedMoreRepliesCursor (tweetId : String) (entries : List JVal) :
    Option (Option JVal × Option (String × JVal)) :=
  match entries.getLast? with
  | none => none
  | some e =>
    match jGetStr e "entryId" with
    | none => none
    | some eid =>
      if pyStartsWith eid "cursor" then
        match cursorLookup e with
        | some v => some (some v, some (tweetId, v))
        | none => some (none, none)
      else some (none, none)

/-- Modelled from the spec: the wrapped library (twikit) reads the trailing
cursor field without a guard and raises when the nested field is absent; this
original traversal tail is not part of src/.  The outer `none` models the
raised exception. -/
def unpatchedCursor (tweetId : String) (entries : List JVal) :
    Option (Option JVal × Option (String × JVal)) :=
  match entries.getLast? with
  | none => none
  | some e =>
    match jGetStr e "entryId" with
    | none => none
    | some eid =>
      if pyStartsWith eid "cursor" then
        match cursorLookup e with
        | some v => some (some v, some (tweetId, v))
        | none => none
      else some (none, none)

/-- Embeds the entry loop of `_patched_get_more_replies` (lines 139-145):
entries whose id starts with `cursor` or `label` are skipped, the rest go
through `tweet_from_data` (an external parser, the oracle `tfd`), and parse
failures (`None`) are dropped.  A failed `entryId` read raises: outer `none`. -/
def collectMoreReplies {α : Type} (tfd : JVal → Option α) : List JVal → Option (List α)
  | [] => some []
  | e :: rest =>
    match jGetStr e "entryId" with
    | none => none
    | some eid =>
      if pyStartsWith eid "cursor" || pyStartsWith eid "label" then collectMoreReplies tfd rest
      else
        match tfd e with
        | none => collectMoreReplies tfd rest
        | some t => (collectMoreReplies tfd rest).map (fun l => t :: l)

/-- Embeds `_patched_get_more_replies` (src/server.py lines 132-164): the
returned `Result(results, _fetch_next_result, next_cursor)` as the triple of
its fields. -/
def patchedGetMoreReplies {α : Type} (tfd : JVal → Option α) (tweetId : String)
    (entries : List JVal) : Option (List α × Option JVal × Option (String × JVal)) :=
  match collectMoreReplies tfd entries with
  | none => none
  | some rs =>
    match patchedMoreRepliesCursor tweetId entries with
    | none => none
    | some (c, f) => some (rs, c, f)

/-! ## The client cache `_ensure_client` (src/server.py lines 416-432) -/

/-- A twikit client as far as this wrapper observes it: the cookies attached
via `set_cookies`. -/
structure Client where
  ct0 : String
  authToken : String
deriving DecidableEq

/-- The mutable fields of `TwitterMCPServer` relevant to the client cache. -/
structure ServerState where
  client : Option Client
  lastCredentials : Option (String × String)
deriving DecidableEq

/-- The trace of externally visible actions: environment reads, client
construction, the `user_id()` validation probe, and wrapped-library calls. -/
inductive Event : Type where
  | readEnv (v : String)
  | construct (ct0 authToken : String)
  | probe (ct0 authToken : String)
  | clientOp (o : String)
deriving DecidableEq

/-- Oracle for the wrapped twikit client: each operation either returns the
reshaped record(s) the corresponding handler builds, or raises (`error`). -/
structure ClientOps where
  userId : String → String → Except String String
  getUserInfo : JVal → Except String JVal
  getTweetById : String → Except String JVal
  searchTweet : JVal → JVal → String → Except String JVal
  getTimeline : JVal → Except String JVal
  getLatestTimeline : JVal → Except String JVal
  tweetReplies : String → JVal → Except String JVal
  getTrends : JVal → JVal → Except String JVal

/-- Embeds `TwitterMCPServer._ensure_client` (src/server.py lines 416-432).
Returns the result (the client, or the raised ValueError message), the new
cache state, and the event trace.  The `asyncio.Lock` serializes calls; a
single call is modeled. -/
def ensureClient (ops : ClientOps) (st : ServerState) (ct0 authToken : String) :
    Except String Client × ServerState × List Event :=
  let creds : String × String := (ct0, authToken)
  let build : Except String Client × ServerState × List Event :=
    let client : Client := { ct0 := ct0, authToken := authToken }
    match ops.userId ct0 authToken with
    | .error e =>
        (.error ("Authentication failed with provided cookies: " ++ e), st,
          [Event.construct ct0 authToken, Event.probe ct0 authToken])
    | .ok _ =>
        (.ok client, { client := some client, lastCredentials := some creds },
          [Event.construct ct0 authToken, Event.probe ct0 authToken])
  match st.client with
  | some c => if st.lastCredentials = some creds then (.ok c, st, []) else build
  | none => build

/-! ## The tool dispatcher `execute_tool` (src/server.py lines 248-327) -/

/-- One MCP text content block. -/
structure TextContent where
  text : String
deriving DecidableEq

/-- The process environment as far as execute_tool reads it (after
`load_dotenv(override=False)` has merged .env into it). -/
structure Env where
  ct0 : Option String
  authToken : Option String

/-- Python truthiness of an `os.getenv` result (`None` or a string). -/
def truthyOpt : Option String → Bool
  | none => false
  | some s => !s.isEmpty

/-- The static reply of the deprecated `authenticate` tool (line 255). -/
def authDeprecatedText : String :=
  "Authentication is automatic using .env. The authenticate tool is deprecated."

/-- The static reply for a disabled tool (line 269). -/
def disabledText (name : String) : String :=
  "Tool \x27" ++ name ++ "\x27 is disabled on this server for safety."

/-- The write/DM tools disabled for safety (lines 259-267). -/
def disabledTools : List String :=
  ["tweet", "like_tweet", "retweet", "send_dm", "add_reaction_to_message",
   "delete_dm", "get_dm_history"]

/-- The missing-credentials reply (lines 272-280). -/
def missingCredsText : String :=
  "Error: Missing Twitter credentials. Set TWITTER_CT0 and TWITTER_AUTH_TOKEN in twitter-scraper-mcp/.env."

/-- The seven tool names with an enabled handler branch. -/
def enabledTools : List String :=
  ["get_user_info", "get_tweet_by_id", "search_tweets", "get_timeline",
   "get_latest_timeline", "get_tweet_replies", "get_trends"]

/-- Python `arguments.get(k)`. -/
def argGet (args : List (String × JVal)) (k : String) : Option JVal := lookupField args k

/-- Python `arguments.get(k, d)`. -/
def argGetD (args : List (String × JVal)) (k : String) (d : JVal) : JVal :=
  (lookupField args k).getD d

/-- Lines 294-296: `product` is replaced by "Latest" unless it is exactly the
string "Top" or "Latest". -/
def normalizeProduct : JVal → String
  | .str "Top" => "Top"
  | _ => "Latest"

/-- Embeds `_get_tweet_by_id` (lines 511-552).  The client fetch, the
not-found check and the record reshaping are delegated to the oracle
(`ops.getTweetById`, which returns the reshaped record or the error record
built at lines 524-530, or raises); the internal catch-all `except` block
(lines 547-552) is the match on the oracle error.  A non-string input makes
`_parse_tweet_id` raise and the `except` block then trips over the unbound
`tweet_id` local, so the exception escapes the handler (`error`). -/
def serverGetTweetById (ops : ClientOps) (input : JVal) : Except String JVal :=
  match input with
  | .str s =>
    let tid := parse_tweet_id s
    match ops.getTweetById tid with
    | .ok j => .ok j
    | .error e =>
        .ok (.obj [("error", .str ("Failed to retrieve tweet: " ++ e)),
                   ("tweet_id", .str tid),
                   ("error_type", .str "Exception")])
  | _ => .error "cannot access local variable \x27tweet_id\x27"

/-- Embeds `_get_tweet_replies` (lines 690-738): every exception inside the
handler is caught and rendered as an error record, so the handler is total. -/
def serverGetTweetReplies (ops : ClientOps) (input : JVal) (count : JVal) : JVal :=
  match input with
  | .str s =>
    match ops.tweetReplies (parse_tweet_id s) count with
    | .ok j => j
    | .error e => .obj [("error", .str ("Failed to get tweet replies: " ++ e))]
  | _ =>
      .obj [("error", .str
        "Failed to get tweet replies: \x27NoneType\x27 object has no attribute \x27isdigit\x27")]

/-- The shared tail of each enabled handler branch of execute_tool: perform
the client operation, then either render the result with
`json.dumps(..., indent=2)` into one text block, or let the exception
continue toward the boundary. -/
def wrapOp (st : ServerState) (ev : List Event) (o : String) (x : Except String JVal) :
    Except String (List TextContent) × ServerState × List Event :=
  match x with
  | .ok j => (.ok [⟨jsonDumps j⟩], st, ev ++ [Event.clientOp o])
  | .error e => (.error e, st, ev ++ [Event.clientOp o])

/-- The per-tool dispatch of execute_tool (lines 284-325), entered after a
client has been ensured.  Produces the body result (`error` models an
exception escaping toward the boundary `except`), the state, and the trace. -/
def dispatchTool (ops : ClientOps) (st : ServerState) (ev : List Event) (name : String)
    (args : List (String × JVal)) :
    Except String (List TextContent) × ServerState × List Event :=
  if name = "get_user_info" then
    match argGet args "username" with
    | none => (.error "\x27username\x27", st, ev)
    | some u => wrapOp st ev "get_user_by_screen_name" (ops.getUserInfo u)
  else if name = "get_tweet_by_id" then
    match argGet args "tweet_input" with
    | none => (.error "\x27tweet_input\x27", st, ev)
    | some inp => wrapOp st ev "get_tweet_by_id" (serverGetTweetById ops inp)
  else if name = "search_tweets" then
    let count := argGetD args "count" (.num 20)
    let product := argGetD args "product" (.str "Latest")
    match argGet args "query" with
    | none => (.error "\x27query\x27", st, ev)
    | some q => wrapOp st ev "search_tweet" (ops.searchTweet q count (normalizeProduct product))
  else if name = "get_timeline" then
    wrapOp st ev "get_timeline" (ops.getTimeline (argGetD args "count" (.num 20)))
  else if name = "get_latest_timeline" then
    wrapOp st ev "get_latest_timeline" (ops.getLatestTimeline (argGetD args "count" (.num 20)))
  else if name = "get_tweet_replies" then
    let count := argGetD args "count" (.num 20)
    let a := (argGet args "tweet_input").getD .null
    let b := (argGet args "tweet_id").getD .null
    let inp := if jTruthy a then a else b
    wrapOp st ev "get_tweet_by_id" (.ok (serverGetTweetReplies ops inp count))
  else if name = "get_trends" then
    let category := argGetD args "category" (.str "trending")
    let count := argGetD args "count" (.num 20)
    wrapOp st ev "get_trends" (ops.getTrends category count)
  else
    (.ok [⟨"Error: Unknown tool: " ++ name⟩], st, ev)

/-- The continuation of execute_tool after `_ensure_client` (line 282): a
raised ValueError passes through toward the boundary, otherwise the per-tool
dispatch runs on the new state. -/
def afterEnsure (ops : ClientOps) (name : String) (args : List (String × JVal))
    (ev0 : List Event) :
    Except String Client × ServerState × List Event →
      Except String (List TextContent) × ServerState × List Event
  | (.error e, st1, ev1) => (.error e, st1, ev0 ++ ev1)
  | (.ok _, st1, ev1) => dispatchTool ops st1 (ev0 ++ ev1) name args

/-- The body of the `try` block of execute_tool (lines 250-325): everything up
to the boundary `except`.  An `error` result is an exception about to be
caught at the boundary. -/
def executeToolAux (ops : ClientOps) (env : Env) (st : ServerState) (name : String)
    (args : List (String × JVal)) :
    Except String (List TextContent) × ServerState × List Event :=
  if name = "authenticate" then
    (.ok [⟨authDeprecatedText⟩], st, [])
  else if name ∈ disabledTools then
    (.ok [⟨disabledText name⟩], st, [])
  else
    let ev0 : List Event := [Event.readEnv "TWITTER_CT0", Event.readEnv "TWITTER_AUTH_TOKEN"]
    match env.ct0, env.authToken with
    | some c, some a =>
      if c.isEmpty || a.isEmpty then (.ok [⟨missingCredsText⟩], st, ev0)
      else afterEnsure ops name args ev0 (ensureClient ops st c a)
    | _, _ => (.ok [⟨missingCredsText⟩], st, ev0)

/-- Embeds `TwitterMCPServer.execute_tool` (src/server.py lines 248-327): the
`try` body with the boundary `except Exception` that renders any escaped
exception as a single `Error:`-prefixed text block. -/
def executeTool (ops : ClientOps) (env : Env) (st : ServerState) (name : String)
    (args : List (String × JVal)) : List TextContent × ServerState × List Event :=
  match executeToolAux ops env st name args with
  | (.ok r, st1, ev) => (r, st1, ev)
  | (.error e, st1, ev) => ([⟨"Error: " ++ e⟩], st1, ev)

/-- The state of a freshly constructed `TwitterMCPServer` (lines 170-176). -/
def initialState : ServerState := { client := none, lastCredentials := none }

/-! ## Sample worlds used by the concrete witnesses -/

/-- A sample oracle whose operations all succeed. -/
def sampleOps : ClientOps where
  userId := fun _ _ => .ok "190537"
  getUserInfo := fun _ => .ok (.obj [("id", .str "1")])
  getTweetById := fun tid => .ok (.obj [("id", .str tid)])
  searchTweet := fun _ _ p => .ok (.arr [.obj [("product", .str p)]])
  getTimeline := fun _ => .ok (.arr [])
  getLatestTimeline := fun _ => .ok (.arr [])
  tweetReplies := fun tid _ => .ok (.obj [("original_tweet", .obj [("id", .str tid)])])
  getTrends := fun _ _ => .ok (.arr [])

/-- A sample oracle whose identity probe fails. -/
def failProbeOps : ClientOps := { sampleOps with userId := fun _ _ => .error "401 Unauthorized" }

/-- An environment with both credential variables set and nonempty. -/
def sampleEnv : Env := { ct0 := some "c0", authToken := some "a0" }

/-- An environment with both credential variables unset. -/
def emptyEnv : Env := { ct0 := none, authToken := none }

/-- A cache state holding a client built from the sample credentials. -/
def cachedState : ServerState :=
  { client := some { ct0 := "c0", authToken := "a0" }, lastCredentials := some ("c0", "a0") }

/-! ## Helper lemmas: every rendered JSON value starts with a marker character -/

/-- `digitChar` never yields an upper-case letter. -/
theorem digitChar_ne_T (k : Nat) : digitChar k ≠ 'T' := by
  unfold digitChar
  split <;> decide

/-- The decimal digit list is nonempty and starts with a digit character. -/
theorem natDigitsAux_cons (n : Nat) (acc : List Char) :
    ∃ k rest, natDigitsAux n acc = digitChar k :: rest := by
  induction n using Nat.strong_induction_on generalizing acc with
  | _ n ih =>
    rw [natDigitsAux]
    by_cases h : n < 10
    · rw [if_pos h]
      exact ⟨n, acc, rfl⟩
    · rw [if_neg h]
      exact ih (n / 10) (Nat.div_lt_self (by omega) (by omega)) _

/-- No rendering of a JSON value starts with the letter `T`: objects, arrays
and strings open with a bracket or quote, literals with a lower-case letter,
numbers with a digit or minus sign. -/
theorem dumpsVal_head_ne_T (ind : Nat) (j : JVal) :
    ∃ c rest, (dumpsVal ind j).data = c :: rest ∧ c ≠ 'T' := by
  cases j with
  | null =>
    rw [dumpsVal]
    exact ⟨'n', "ull".data, rfl, by decide⟩
  | bool b =>
    cases b with
    | true =>
      rw [dumpsVal]
      exact ⟨'t', "rue".data, rfl, by decide⟩
    | false =>
      rw [dumpsVal]
      exact ⟨'f', "alse".data, rfl, by decide⟩
  | num n =>
    rw [dumpsVal]
    unfold intRepr
    by_cases h : n < 0
    · rw [if_pos h]
      exact ⟨'-', (natRepr n.natAbs).data, rfl, by decide⟩
    · rw [if_neg h]
      obtain ⟨k, rest, hk⟩ := natDigitsAux_cons n.natAbs []
      exact ⟨digitChar k, rest, by simp [natRepr, hk], digitChar_ne_T k⟩
  | str s =>
    rw [dumpsVal]
    exact ⟨'"', _, rfl, by decide⟩
  | arr xs =>
    cases xs with
    | nil =>
      rw [dumpsVal]
      exact ⟨'[', "]".data, rfl, by decide⟩
    | cons x t =>
      rw [dumpsVal]
      exact ⟨'[', _, rfl, by decide⟩
  | obj fs =>
    cases fs with
    | nil =>
      rw [dumpsVal]
      exact ⟨'\x7b', ['\x7d'], rfl, by decide⟩
    | cons f t =>
      rw [dumpsVal]
      exact ⟨'\x7b', _, rfl, by decide⟩

/-! ## Claim theorems -/

/-- Claim C1: `_ensure_client` returns the cached client handle, with no
construction and no network call, exactly when a client is cached and the
stored credential pair equals the supplied one; otherwise it constructs a new
client with the credentials attached, probes it, and (on probe success)
caches and returns it, with the probe happening before the cache update. -/
theorem ensure_client_cache_discipline (ops : ClientOps) (st : ServerState)
    (ct0 auth : String) :
    (∀ c, st.client = some c → st.lastCredentials = some (ct0, auth) →
      ensureClient ops st ct0 auth = (.ok c, st, [])) ∧
    ((st.client = none ∨ st.lastCredentials ≠ some (ct0, auth)) →
      ∀ u, ops.userId ct0 auth = .ok u →
        ensureClient ops st ct0 auth =
          (.ok { ct0 := ct0, authToken := auth },
            { client := some { ct0 := ct0, authToken := auth },
              lastCredentials := some (ct0, auth) },
            [Event.construct ct0 auth, Event.probe ct0 auth])) := by
  constructor
  · intro c hc hl
    simp [ensureClient, hc, hl]
  · intro h u hu
    rcases h with h | h
    · simp [ensureClient, h, hu]
    · cases hc : st.client with
      | none => simp [ensureClient, hc, hu]
      | some c => simp [ensureClient, hc, h, hu]

/-- Witness for C1: both the cache-hit path and the rebuild path at concrete
credentials. -/
theorem ensure_client_cache_discipline_witness :
    ensureClient sampleOps cachedState "c0" "a0" =
      (.ok { ct0 := "c0", authToken := "a0" }, cachedState, []) ∧
    ensureClient sampleOps initialState "c0" "a0" =
      (.ok { ct0 := "c0", authToken := "a0" },
        { client := some { ct0 := "c0", authToken := "a0" },
          lastCredentials := some ("c0", "a0") },
        [Event.construct "c0" "a0", Event.probe "c0" "a0"]) :=
  ⟨(ensure_client_cache_discipline sampleOps cachedState "c0" "a0").1
      { ct0 := "c0", authToken := "a0" } rfl rfl,
   (ensure_client_cache_discipline sampleOps initialState "c0" "a0").2
      (Or.inl rfl) "190537" rfl⟩

/-- Claim C2: when the identity probe raises, `_ensure_client` raises the
authentication ValueError and the cache state is returned unchanged — the
broken client is not stored and the stored credential pair is not updated. -/
theorem ensure_client_probe_failure (ops : ClientOps) (st : ServerState)
    (ct0 auth e : String)
    (hmiss : st.client = none ∨ st.lastCredentials ≠ some (ct0, auth))
    (hprobe : ops.userId ct0 auth = .error e) :
    ensureClient ops st ct0 auth =
      (.error ("Authentication failed with provided cookies: " ++ e), st,
        [Event.construct ct0 auth, Event.probe ct0 auth]) := by
  rcases hmiss with h | h
  · simp [ensureClient, h, hprobe]
  · cases hc : st.client with
    | none => simp [ensureClient, hc, hprobe]
    | some c => simp [ensureClient, hc, h, hprobe]

/-- Witness for C2: a failing probe at concrete credentials leaves the fresh
state untouched. -/
theorem ensure_client_probe_failure_witness :
    ensureClient failProbeOps initialState "c0" "a0" =
      (.error "Authentication failed with provided cookies: 401 Unauthorized",
        initialState,
        [Event.construct "c0" "a0", Event.probe "c0" "a0"]) :=
  ensure_client_probe_failure failProbeOps initialState "c0" "a0" "401 Unauthorized"
    (Or.inl rfl) rfl

/-- Claim C3: the resolver computes the four-case reference function: pure
digit strings pass through, then the status-URL pattern is searched and its
digit group returned, then the all-digits strip is returned when at least 15
digits remain, and otherwise the input passes through unchanged. -/
theorem parse_tweet_id_reference (s : String) :
    (pyIsDigit s = true → parse_tweet_id s = s) ∧
    (pyIsDigit s = false → ∀ d, searchStatus s.data = some d → parse_tweet_id s = d) ∧
    (pyIsDigit s = false → searchStatus s.data = none →
      15 ≤ (s.data.filter Char.isDigit).length →
      parse_tweet_id s = String.mk (s.data.filter Char.isDigit)) ∧
    (pyIsDigit s = false → searchStatus s.data = none →
      (s.data.filter Char.isDigit).length < 15 →
      parse_tweet_id s = s) := by
  refine ⟨?_, ?_, ?_, ?_⟩
  · intro h
    simp [parse_tweet_id, h]
  · intro h d hd
    simp [parse_tweet_id, h, hd]
  · intro h hs hlen
    have hne : s.data.filter Char.isDigit ≠ [] := by
      intro hnil
      rw [hnil] at hlen
      simp at hlen
    simp [parse_tweet_id, h, hs, hne, hlen]
  · intro h hs hlen
    rw [parse_tweet_id]
    simp only [h, Bool.false_eq_true, if_false, hs]
    rw [if_neg]
    rintro ⟨-, h15⟩
    omega

/-- Witness for C3: the URL case at a concrete input with a query string. -/
theorem parse_tweet_id_reference_witness :
    pyIsDigit "https://x.com/user/status/42?s=1" = false ∧
    searchStatus "https://x.com/user/status/42?s=1".data = some "42" ∧
    parse_tweet_id "https://x.com/user/status/42?s=1" = "42" :=
  ⟨rfl, rfl,
    (parse_tweet_id_reference "https://x.com/user/status/42?s=1").2.1 rfl "42" rfl⟩

/-- ASCII lower-casing of one character (enough for the case-insensitive
substring checks of the credential error text, which is pure ASCII). -/
def lowerChar (c : Char) : Char :=
  if 65 ≤ c.toNat ∧ c.toNat ≤ 90 then Char.ofNat (c.toNat + 32) else c

/-- Claim C4: any exception raised while handling a tool call is caught at the
dispatcher boundary and becomes a single text block prefixed `Error:`, so
execute_tool always returns the try-body result or that error block — it
never raises past its boundary. -/
theorem execute_tool_boundary (ops : ClientOps) (env : Env) (st : ServerState)
    (name : String) (args : List (String × JVal)) :
    (∀ r st1 ev, executeToolAux ops env st name args = (.ok r, st1, ev) →
      executeTool ops env st name args = (r, st1, ev)) ∧
    (∀ e st1 ev, executeToolAux ops env st name args = (.error e, st1, ev) →
      executeTool ops env st name args = ([⟨"Error: " ++ e⟩], st1, ev)) := by
  constructor
  · intro r st1 ev h
    simp [executeTool, h]
  · intro e st1 ev h
    simp [executeTool, h]

/-- Witness for C4: a failing authentication probe escapes `_ensure_client`
and is rendered as a single `Error:` block at the boundary. -/
theorem execute_tool_boundary_witness :
    executeTool failProbeOps sampleEnv initialState "get_timeline" [] =
      ([⟨"Error: Authentication failed with provided cookies: 401 Unauthorized"⟩],
        initialState,
        [Event.readEnv "TWITTER_CT0", Event.readEnv "TWITTER_AUTH_TOKEN",
         Event.construct "c0" "a0", Event.probe "c0" "a0"]) :=
  (execute_tool_boundary failProbeOps sampleEnv initialState "get_timeline" []).2
    "Authentication failed with provided cookies: 401 Unauthorized" initialState
    [Event.readEnv "TWITTER_CT0", Event.readEnv "TWITTER_AUTH_TOKEN",
     Event.construct "c0" "a0", Event.probe "c0" "a0"] rfl

/-- Claim C6: invoking any tool of the disabled set returns exactly one text
block with the literal disabled message, regardless of arguments, environment
and cache state. -/
theorem disabled_tool_static_reply (ops : ClientOps) (env : Env) (st : ServerState)
    (args : List (String × JVal)) (name : String) (h : name ∈ disabledTools) :
    executeTool ops env st name args =
      ([⟨"Tool \x27" ++ name ++ "\x27 is disabled on this server for safety."⟩], st, []) := by
  simp only [disabledTools, List.mem_cons, List.not_mem_nil, or_false] at h
  rcases h with rfl | rfl | rfl | rfl | rfl | rfl | rfl <;> rfl

/-- Witness for C6: the `tweet` tool. -/
theorem disabled_tool_static_reply_witness :
    executeTool sampleOps emptyEnv initialState "tweet" [] =
      ([⟨"Tool \x27tweet\x27 is disabled on this server for safety."⟩], initialState, []) :=
  disabled_tool_static_reply sampleOps emptyEnv initialState [] "tweet"
    (by simp [disabledTools])

/-- Claim C10: the disabled-tool check and the deprecated `authenticate` check
run before the environment is read and before the cache is consulted: the
static block is returned with an empty event trace (no environment read, no
construction, no probe, no client call) and the cache state unchanged. -/
theorem early_checks_frame (ops : ClientOps) (env : Env) (st : ServerState)
    (args : List (String × JVal)) (name : String)
    (h : name = "authenticate" ∨ name ∈ disabledTools) :
    executeTool ops env st name args =
      ((if name = "authenticate" then [⟨authDeprecatedText⟩] else [⟨disabledText name⟩]),
        st, []) := by
  rcases h with rfl | h
  · rfl
  · simp only [disabledTools, List.mem_cons, List.not_mem_nil, or_false] at h
    rcases h with rfl | rfl | rfl | rfl | rfl | rfl | rfl <;> rfl

/-- Witness for C10: the deprecated `authenticate` tool in a credential-free
environment leaves the fresh cache untouched and emits no events. -/
theorem early_checks_frame_witness :
    executeTool sampleOps emptyEnv initialState "authenticate" [] =
      ([⟨authDeprecatedText⟩], initialState, []) :=
  early_checks_frame sampleOps emptyEnv initialState [] "authenticate" (Or.inl rfl)

/-- Claim C7: with both credential variables empty or unset, any tool that is
neither disabled nor the deprecated `authenticate` returns the single
descriptive error block — whose lower-casing contains `missing`,
`twitter_ct0` and `twitter_auth_token` — before any client construction,
probe, or client call (the trace holds only the two environment reads). -/
theorem missing_credentials_error_block (ops : ClientOps) (st : ServerState)
    (args : List (String × JVal)) (name : String)
    (hauthn : name ≠ "authenticate") (hdis : name ∉ disabledTools)
    (env : Env)
    (hct0 : env.ct0 = none ∨ env.ct0 = some "")
    (hauth : env.authToken = none ∨ env.authToken = some "") :
    executeTool ops env st name args =
      ([⟨missingCredsText⟩], st,
        [Event.readEnv "TWITTER_CT0", Event.readEnv "TWITTER_AUTH_TOKEN"]) ∧
    (∃ p q, missingCredsText.data.map lowerChar = p ++ "missing".data ++ q) ∧
    (∃ p q, missingCredsText.data.map lowerChar = p ++ "twitter_ct0".data ++ q) ∧
    (∃ p q, missingCredsText.data.map lowerChar = p ++ "twitter_auth_token".data ++ q) := by
  refine ⟨?_, ?_, ?_, ?_⟩
  · rcases hct0 with h1 | h1 <;> rcases hauth with h2 | h2 <;>
      simp [executeTool, executeToolAux, hauthn, hdis, h1, h2,
        show ("" : String).isEmpty = true from rfl]
  · exact ⟨"error: ".data,
      " twitter credentials. set twitter_ct0 and twitter_auth_token in twitter-scraper-mcp/.env.".data,
      by decide⟩
  · exact ⟨"error: missing twitter credentials. set ".data,
      " and twitter_auth_token in twitter-scraper-mcp/.env.".data, by decide⟩
  · exact ⟨"error: missing twitter credentials. set twitter_ct0 and ".data,
      " in twitter-scraper-mcp/.env.".data, by decide⟩

/-- Witness for C7: `get_timeline` in an environment with no credentials. -/
theorem missing_credentials_error_block_witness :
    executeTool sampleOps emptyEnv initialState "get_timeline" [] =
      ([⟨missingCredsText⟩], initialState,
        [Event.readEnv "TWITTER_CT0", Event.readEnv "TWITTER_AUTH_TOKEN"]) :=
  (missing_credentials_error_block sampleOps initialState [] "get_timeline"
    (by decide) (by simp [disabledTools]) emptyEnv (Or.inl rfl) (Or.inl rfl)).1

/-- A value other than the exact strings `Top` and `Latest` normalizes to
`Latest`. -/
theorem normalizeProduct_ne_top (v : JVal) (h : v ≠ JVal.str "Top") :
    normalizeProduct v = "Latest" := by
  unfold normalizeProduct
  split
  · exact absurd rfl h
  · rfl

/-- Shadowing `product` with `Latest` leaves the search dispatch unchanged
when the original `product` argument was absent or invalid. -/
theorem dispatch_search_product_shadow (ops : ClientOps) (st : ServerState)
    (ev : List Event) (args : List (String × JVal))
    (h : argGet args "product" = none ∨
      ∃ v, argGet args "product" = some v ∧ v ≠ JVal.str "Top" ∧ v ≠ JVal.str "Latest") :
    dispatchTool ops st ev "search_tweets" (("product", JVal.str "Latest") :: args) =
      dispatchTool ops st ev "search_tweets" args := by
  have hqq : argGet (("product", JVal.str "Latest") :: args) "query" = argGet args "query" := by
    simp [argGet, lookupField]
  have hcc : argGetD (("product", JVal.str "Latest") :: args) "count" (.num 20) =
      argGetD args "count" (.num 20) := by
    simp [argGetD, lookupField]
  have hpp : normalizeProduct
      (argGetD (("product", JVal.str "Latest") :: args) "product" (.str "Latest")) = "Latest" := by
    simp [argGetD, lookupField, normalizeProduct]
  have hp : normalizeProduct (argGetD args "product" (.str "Latest")) = "Latest" := by
    rcases h with h | ⟨v, hv, hvt, _⟩
    · unfold argGet at h
      simp [argGetD, h, normalizeProduct]
    · unfold argGet at hv
      simp only [argGetD, hv, Option.getD_some]
      exact normalizeProduct_ne_top v hvt
  simp only [dispatchTool]
  simp [hqq, hcc, hpp, hp]

/-- Claim C8: invoking `search_tweets` with a `product` value that is absent
or different from `Top`/`Latest` behaves exactly as if `product="Latest"` had
been supplied: same response, same final state, same event trace (in
particular the same client search call), and no error for the invalid
value. -/
theorem search_tweets_invalid_product_fallback (ops : ClientOps) (env : Env)
    (st : ServerState) (args : List (String × JVal))
    (h : argGet args "product" = none ∨
      ∃ v, argGet args "product" = some v ∧ v ≠ JVal.str "Top" ∧ v ≠ JVal.str "Latest") :
    executeTool ops env st "search_tweets" args =
      executeTool ops env st "search_tweets" (("product", JVal.str "Latest") :: args) := by
  have haux : executeToolAux ops env st "search_tweets" args =
      executeToolAux ops env st "search_tweets" (("product", JVal.str "Latest") :: args) := by
    unfold executeToolAux
    cases hc : env.ct0 with
    | none => rfl
    | some c =>
      cases ha : env.authToken with
      | none => rfl
      | some a =>
        by_cases hemp : c.isEmpty || a.isEmpty
        · simp [hemp]
        · simp only [hemp]
          rcases hE : ensureClient ops st c a with ⟨res, st1, ev1⟩
          cases res with
          | error e => simp [afterEnsure]
          | ok cl =>
            simp only [afterEnsure]
            exact (dispatch_search_product_shadow ops st1 _ args h).symm
  rw [executeTool, executeTool, haux]

/-- Witness for C8: a bogus product value at concrete arguments. -/
theorem search_tweets_invalid_product_fallback_witness :
    executeTool sampleOps sampleEnv initialState "search_tweets"
        [("query", JVal.str "lean"), ("product", JVal.str "Bogus")] =
      executeTool sampleOps sampleEnv initialState "search_tweets"
        (("product", JVal.str "Latest") ::
          [("query", JVal.str "lean"), ("product", JVal.str "Bogus")]) :=
  search_tweets_invalid_product_fallback sampleOps sampleEnv initialState
    [("query", JVal.str "lean"), ("product", JVal.str "Bogus")]
    (Or.inr ⟨JVal.str "Bogus", rfl,
      fun hcon => by injection hcon with hs; exact absurd hs (by decide),
      fun hcon => by injection hcon with hs; exact absurd hs (by decide)⟩)

/-- A successful wrapped client operation yields one JSON-rendering block. -/
theorem wrapOp_ok (st : ServerState) (ev : List Event) (o : String)
    (x : Except String JVal) :
    ∀ r st1 ev1, wrapOp st ev o x = (.ok r, st1, ev1) → ∃ j, r = [⟨jsonDumps j⟩] := by
  intro r st1 ev1 h
  cases x with
  | ok j =>
    unfold wrapOp at h
    injection h with h1 h2
    injection h1 with h1
    exact ⟨j, h1.symm⟩
  | error e =>
    unfold wrapOp at h
    injection h with h1 h2
    exact absurd h1 (by simp)

/-- Every successful dispatch result is a single text block. -/
theorem dispatch_ok_singleton (ops : ClientOps) (st : ServerState) (ev : List Event)
    (name : String) (args : List (String × JVal)) :
    ∀ r st1 ev1, dispatchTool ops st ev name args = (.ok r, st1, ev1) → ∃ t, r = [t] := by
  intro r st1 ev1 h
  unfold dispatchTool at h
  repeat' split at h
  all_goals
    first
    | (injection h with h1 h2
       first
       | exact Except.noConfusion h1
       | (injection h1 with h3; exact ⟨_, h3.symm⟩))
    | (obtain ⟨j, hj⟩ := wrapOp_ok _ _ _ _ r st1 ev1 h
       exact ⟨⟨jsonDumps j⟩, hj⟩)

/-- On the seven enabled tools, every successful dispatch result is a single
text block rendering a JSON value. -/
theorem dispatch_ok_json (ops : ClientOps) (st : ServerState) (ev : List Event)
    (name : String) (args : List (String × JVal)) (hmem : name ∈ enabledTools) :
    ∀ r st1 ev1, dispatchTool ops st ev name args = (.ok r, st1, ev1) →
      ∃ j, r = [⟨jsonDumps j⟩] := by
  intro r st1 ev1 h
  unfold dispatchTool at h
  repeat' split at h
  all_goals
    first
    | (injection h with h1 h2
       first
       | exact Except.noConfusion h1
       | (injection h1 with h3; exact ⟨_, h3.symm⟩)
       | (simp only [enabledTools, List.mem_cons, List.not_mem_nil, or_false] at hmem
          rcases hmem with rfl | rfl | rfl | rfl | rfl | rfl | rfl <;> simp_all))
    | exact wrapOp_ok _ _ _ _ r st1 ev1 h

/-- A raised ValueError from `_ensure_client` never results in an ok body;
otherwise the dispatch invariants carry over. -/
theorem afterEnsure_ok_singleton (ops : ClientOps) (name : String)
    (args : List (String × JVal)) (ev0 : List Event)
    (x : Except String Client × ServerState × List Event) :
    ∀ r st1 ev, afterEnsure ops name args ev0 x = (.ok r, st1, ev) → ∃ t, r = [t] := by
  intro r st1 ev h
  rcases x with ⟨res, st2, ev2⟩
  cases res with
  | error e =>
    simp only [afterEnsure] at h
    injection h with h1 h2
    exact Except.noConfusion h1
  | ok cl =>
    simp only [afterEnsure] at h
    exact dispatch_ok_singleton _ _ _ _ _ r st1 ev h

/-- On the enabled tools, an ok body coming through `afterEnsure` renders
JSON. -/
theorem afterEnsure_ok_json (ops : ClientOps) (name : String)
    (args : List (String × JVal)) (ev0 : List Event)
    (x : Except String Client × ServerState × List Event) (hmem : name ∈ enabledTools) :
    ∀ r st1 ev, afterEnsure ops name args ev0 x = (.ok r, st1, ev) →
      ∃ j, r = [⟨jsonDumps j⟩] := by
  intro r st1 ev h
  rcases x with ⟨res, st2, ev2⟩
  cases res with
  | error e =>
    simp only [afterEnsure] at h
    injection h with h1 h2
    exact Except.noConfusion h1
  | ok cl =>
    simp only [afterEnsure] at h
    exact dispatch_ok_json _ _ _ _ _ hmem r st1 ev h

/-- Every successful try body yields a single text block. -/
theorem executeToolAux_ok_singleton (ops : ClientOps) (env : Env) (st : ServerState)
    (name : String) (args : List (String × JVal)) :
    ∀ r st1 ev, executeToolAux ops env st name args = (.ok r, st1, ev) → ∃ t, r = [t] := by
  intro r st1 ev h
  unfold executeToolAux at h
  repeat' split at h
  all_goals
    first
    | (injection h with h1 h2
       first
       | exact Except.noConfusion h1
       | (injection h1 with h3; exact ⟨_, h3.symm⟩))
    | exact afterEnsure_ok_singleton ops name args _ _ r st1 ev h

/-- Counterexample to claim C9 as stated: invoking the disabled `tweet` tool
returns a block whose body is the plain disabled notice, which is not the
rendering of any JSON value (every rendering opens with a bracket, quote,
digit, sign or lower-case literal, never with `T`). -/
theorem response_shape_counterexample :
    ¬ ∃ j : JVal, (executeTool sampleOps emptyEnv initialState "tweet" []).1 =
      [⟨jsonDumps j⟩] := by
  rintro ⟨j, hj⟩
  have hcomp : (executeTool sampleOps emptyEnv initialState "tweet" []).1 =
      [⟨disabledText "tweet"⟩] := rfl
  rw [hcomp] at hj
  simp only [List.cons.injEq, TextContent.mk.injEq, and_true] at hj
  obtain ⟨c, rest, hdata, hne⟩ := dumpsVal_head_ne_T 0 j
  have hd : (disabledText "tweet").data = c :: rest := by
    rw [hj]
    exact hdata
  have hT : (disabledText "tweet").data =
      'T' :: "ool \x27tweet\x27 is disabled on this server for safety.".data := rfl
  rw [hT] at hd
  injection hd with hc htail
  exact hne hc.symm

/-- Claim C9 (amended): every execute_tool response is exactly one text
block; on the seven enabled tools, whenever credentials are present and the
try body completes without an exception, that block body is the
pretty-printed JSON rendering of a value (the requested record(s) or an
object carrying an error string).  The disabled-tool, unknown-tool,
deprecated-authenticate, missing-credential and caught-exception paths
return plain prose blocks instead. -/
theorem execute_tool_response_shape (ops : ClientOps) (env : Env) (st : ServerState)
    (name : String) (args : List (String × JVal)) :
    (∃ t, (executeTool ops env st name args).1 = [t]) ∧
    (name ∈ enabledTools → ∀ c a, env.ct0 = some c → env.authToken = some a →
      c.isEmpty = false → a.isEmpty = false →
      ∀ r st1 ev, executeToolAux ops env st name args = (.ok r, st1, ev) →
        ∃ j, r = [⟨jsonDumps j⟩]) := by
  constructor
  · rcases haux : executeToolAux ops env st name args with ⟨res, st1, ev⟩
    cases res with
    | ok r =>
      obtain ⟨t, ht⟩ := executeToolAux_ok_singleton ops env st name args r st1 ev haux
      exact ⟨t, by simp [executeTool, haux, ht]⟩
    | error e => exact ⟨⟨"Error: " ++ e⟩, by simp [executeTool, haux]⟩
  · intro hmem c a hc ha hce hae r st1 ev h
    simp only [enabledTools, List.mem_cons, List.not_mem_nil, or_false] at hmem
    rcases hmem with rfl | rfl | rfl | rfl | rfl | rfl | rfl <;>
    · unfold executeToolAux at h
      simp [hc, ha, hce, hae] at h
      exact afterEnsure_ok_json _ _ _ _ _ (by simp [enabledTools]) r st1 ev h

/-- Witness for the amended C9: a successful `get_trends` call renders JSON. -/
theorem execute_tool_response_shape_witness :
    ∃ j, ([(⟨jsonDumps (JVal.arr [])⟩ : TextContent)] : List TextContent) =
      [⟨jsonDumps j⟩] :=
  (execute_tool_response_shape sampleOps sampleEnv initialState "get_trends" []).2
    (by simp [enabledTools]) "c0" "a0" rfl rfl rfl rfl
    [⟨jsonDumps (JVal.arr [])⟩] cachedState
    [Event.readEnv "TWITTER_CT0", Event.readEnv "TWITTER_AUTH_TOKEN",
     Event.construct "c0" "a0", Event.probe "c0" "a0", Event.clientOp "get_trends"] rfl

/-- Claim C5: in both patched pagination routines, when the trailing entry is
a cursor entry whose nested `content.itemContent.value` field is missing, the
continuation token of the returned replies Result is `none` and no
fetch-next-page operation is bound (the sequence terminates) — where the
unpatched traversal raises; when the nested field is present, both routines
take the token and the bound fetch operation from that field exactly as the
unpatched traversal does. -/
theorem pagination_patch_cursor_guard {α : Type} (tfd : JVal → Option α)
    (tid : String) (entries : List JVal) (e : JVal) (eid : String)
    (hlast : entries.getLast? = some e)
    (heid : jGetStr e "entryId" = some eid)
    (hcur : pyStartsWith eid "cursor" = true) :
    (cursorLookup e = none →
      patchedTweetDetailCursor tid entries = some (none, none) ∧
      patchedMoreRepliesCursor tid entries = some (none, none) ∧
      (∀ rs, collectMoreReplies tfd entries = some rs →
        patchedGetMoreReplies tfd tid entries = some (rs, none, none)) ∧
      unpatchedCursor tid entries = none) ∧
    (∀ v, cursorLookup e = some v →
      patchedTweetDetailCursor tid entries = some (some v, some (tid, v)) ∧
      patchedMoreRepliesCursor tid entries = some (some v, some (tid, v)) ∧
      patchedTweetDetailCursor tid entries = unpatchedCursor tid entries ∧
      patchedMoreRepliesCursor tid entries = unpatchedCursor tid entries) := by
  constructor
  · intro hmiss
    refine ⟨?_, ?_, ?_, ?_⟩
    · simp [patchedTweetDetailCursor, hlast, heid, hcur, hmiss]
    · simp [patchedMoreRepliesCursor, hlast, heid, hcur, hmiss]
    · intro rs hrs
      simp [patchedGetMoreReplies, hrs, patchedMoreRepliesCursor, hlast, heid, hcur, hmiss]
    · simp [unpatchedCursor, hlast, heid, hcur, hmiss]
  · intro v hv
    refine ⟨?_, ?_, ?_, ?_⟩
    · simp [patchedTweetDetailCursor, hlast, heid, hcur, hv]
    · simp [patchedMoreRepliesCursor, hlast, heid, hcur, hv]
    · simp [patchedTweetDetailCursor, unpatchedCursor, hlast, heid, hcur, hv]
    · simp [patchedMoreRepliesCursor, unpatchedCursor, hlast, heid, hcur, hv]

/-- A tweet entry followed by a trailing cursor entry that carries a
`cursorType` but no `itemContent` — the malformed shape the patch targets. -/
def sampleCursorEntry : JVal :=
  .obj [("entryId", .str "cursor-bottom-1"),
        ("content", .obj [("cursorType", .str "Bottom")])]

/-- A response entry list ending in the malformed cursor entry. -/
def sampleEntries : List JVal :=
  [.obj [("entryId", .str "tweet-1"), ("content", .obj [])], sampleCursorEntry]

/-- Witness for C5: on the malformed trailing cursor entry, both patched
routines terminate the sequence with token `none` and nothing bound, while
the unpatched traversal raises. -/
theorem pagination_patch_cursor_guard_witness :
    patchedTweetDetailCursor "1" sampleEntries = some (none, none) ∧
    patchedGetMoreReplies (fun _ => none : JVal → Option Unit) "1" sampleEntries =
      some ([], none, none) ∧
    unpatchedCursor "1" sampleEntries = none :=
  have h := (pagination_patch_cursor_guard (fun _ => none : JVal → Option Unit)
    "1" sampleEntries sampleCursorEntry "cursor-bottom-1" rfl rfl rfl).1 rfl
  ⟨h.1, h.2.2.1 [] rfl, h.2.2.2⟩

end TwitterMCP
